import Mathlib

/-!
Verification of the tagged-node / schema-validation core of `roman_datamodels`
(`src/roman_datamodels/stnode.py`, `src/roman_datamodels/validate.py`).

The Python code is shallowly embedded: schema documents become the inductive
`Sch`, tree values become `Value`, the mapping node (`DNode`) becomes the
structure `Node`, and the module-level state that a single attribute write
consumes (the `validate` / `strict_validation` flags, the scalar-key table, and
the external jsonschema/asdf machinery) is gathered into `Env`.  External
collaborators (the asdf validator outcome and its error text) are parameters,
never stubbed-in constants; everything the repository itself computes is
translated from the source.
-/

/-- A JSON-schema document as traversed by the source: the traversal only ever
reads the keys `properties`, `allOf` and `anyOf`; every other key of the dict
is kept abstractly (by name) in `extra` so that equality with the empty dict
`\x7b\x7d` remains faithful ('properties': absent vs present-but-empty, etc.). -/
inductive Sch where
  | mk : Option (List (String × Sch)) → Option (List Sch) → Option (List Sch) →
      List String → Sch

/-- The empty dict, returned by `_get_schema_for_property` when nothing matched. -/
def emptySch : Sch := Sch.mk none none none []

/-- `schema.get('properties')`. -/
def Sch.propsOf : Sch → Option (List (String × Sch))
  | .mk p _ _ _ => p

/-- `schema.get('allOf', [])`. -/
def Sch.allOfD : Sch → List Sch
  | .mk _ a _ _ => a.getD []

/-- `schema.get('anyOf', [])`. -/
def Sch.anyOfD : Sch → List Sch
  | .mk _ _ a _ => a.getD []

/-- Python `schema == \x7b\x7d`: the dict has no keys at all. -/
def Sch.isEmptyDict : Sch → Bool
  | .mk none none none [] => true
  | _ => false

mutual

/-- `_get_schema_for_property(schema, attr)` (stnode.py lines 109-118):
direct `properties` entry first, else the `allOf` branches then the `anyOf`
branches in order, recursing, first non-empty result wins, else `\x7b\x7d`. -/
def getSchemaForProperty : Sch → String → Sch
  | Sch.mk props aof ayf _, attr =>
    match props.bind (fun ps => List.lookup attr ps) with
    | some sub => sub
    | none =>
      match searchCombiner (aof.getD []) attr with
      | some r => r
      | none =>
        match searchCombiner (ayf.getD []) attr with
        | some r => r
        | none => emptySch
termination_by s _ => sizeOf s
decreasing_by
  · cases aof <;> simp <;> omega
  · cases ayf <;> simp <;> omega

/-- The inner loop `for subschema in schema.get(combiner, []): ...` of
`_get_schema_for_property`: first branch whose recursive result is non-empty. -/
def searchCombiner : List Sch → String → Option Sch
  | [], _ => none
  | s :: rest, attr =>
    let r := getSchemaForProperty s attr
    if r.isEmptyDict then searchCombiner rest attr else some r
termination_by l _ => sizeOf l
decreasing_by
  · simp
    omega
  · simp

end

/-- A value stored in the tree: None, numbers, strings, datetime/astropy-Time
scalars (carrying their canonical string form), opaque binary arrays
(`np.ndarray` / `NDArrayType`, identified abstractly), nested lists and dicts,
and instances of the synthesized tagged-scalar classes (`promoted key v`,
modelling `_SCALAR_NODE_CLASSES_BY_KEY[key](v)`, a `str`/`Time` subclass). -/
inductive Value where
  | null
  | int_ (n : Int)
  | str (s : String)
  | datetime_ (iso : String)
  | time_ (s : String)
  | ndarr (id : Nat)
  | list_ (xs : List Value)
  | map_ (xs : List (String × Value))
  | promoted (key : String) (v : Value)

/-- `_VALID_ORIGIN` (stnode.py line 49). -/
def validOriginL : List String := ["STSCI", "IPAC/SSC"]

/-- `_VALID_TELESCOPE` (stnode.py line 50). -/
def validTelescopeL : List String := ["ROMAN"]

/-- Python `value in <list of str>`: equality against each string; a plain
`str` (or a tagged-scalar `str` subclass) compares by content, any other
value compares unequal. -/
def pyStrIn (v : Value) (l : List String) : Bool :=
  match v with
  | .str s => l.contains s
  | .promoted _ (.str s) => l.contains s
  | _ => false

/-- `DNode._convert_to_scalar(key, value)` (stnode.py lines 150-155): wrap the
value in its registered tagged-scalar class if the key is in
`_SCALAR_NODE_CLASSES_BY_KEY` (the table's key set is `scalarKeys`). -/
def convertToScalar (scalarKeys : List String) (key : String) (value : Value) :
    Value :=
  if scalarKeys.contains key then .promoted key value else value

/-- Python dict assignment `d[k] = v`: replace in place if the key exists
(keeping insertion order), else append. -/
def updAssoc {α : Type} : List (String × α) → String → α → List (String × α)
  | [], k, v => [(k, v)]
  | (k', v') :: rest, k, v =>
    if k' = k then (k, v) :: rest else (k', v') :: updAssoc rest k v

/-- What one schema-resolution step sees of `self._parent`: `None`, a plain
`DNode` (whose `_schema()` populates its own cache but returns `None`), or a
`TaggedObjectNode` (whose `_schema()` returns the schema fetched from the
registry for its tag; the fetched document is carried here). -/
inductive Parent where
  | noneP
  | plainP
  | taggedP (schema : Sch)

/-- Whether the node performing the write resolves its schema itself
(`TaggedObjectNode._schema`, carrying the document its tag fetches) or
delegates to `self._parent` with its own `_name` (`DNode._schema`). -/
inductive NKind where
  | plainK (parent : Parent) (name : Option String)
  | taggedK (schema : Sch)

/-- The state of a mapping node that one attribute write touches: `data` is the
raw dict `self._data`, `xschema` the cached `self._x_schema`, `privates` the
other entries of `self.__dict__` written through the private branch of
`__setattr__`. -/
structure Node where
  data : List (String × Value)
  xschema : Option Sch
  kind : NKind
  privates : List (String × Value)

/-- Everything ambient that one write consumes: the process-wide `validate` and
`strict_validation` flags, the scalar-key table, and the external
jsonschema/asdf machinery — `vt` is the outcome of `asdf_schema.validate_type`
for a (tagged-tree-converted) instance against a fragment (the list of error
messages of the `type` keyword, fed through the `_check_type` callback),
`others` the errors of the remaining `YAML_VALIDATORS` keyword callbacks
(enum, pattern, ...), which the validator built by `_check_value` runs
unchanged on every instance — a None instance included — and `errText` the
text of the `jsonschema.ValidationError` the validator raises. -/
structure Env where
  validate : Bool
  strict_validation : Bool
  vt : Sch → Value → List String
  others : Sch → Value → List String
  errText : Sch → Value → String
  scalarKeys : List String

/-- `_check_type(validator, types, instance, schema)` (validate.py lines
43-52): a None instance yields no errors; otherwise the external
`asdf_schema.validate_type` (here the parameter `vtErrors`) decides. -/
def checkType (vtErrors : Value → List String) (instance_ : Value) :
    List String :=
  match instance_ with
  | .null => []
  | v => vtErrors v

/-- `_check_value(value, schema, ctx)` builds its validator from the full
`YAML_VALIDATORS` set with only the `type` callback replaced by `_check_type`
(stnode.py lines 58-59 and 95-100), and succeeds iff no keyword reports an
error: the `type` keyword's errors pass through the null-skipping
`checkType`, while the remaining keyword callbacks (`env.others`) run on
every instance, a None instance included. -/
def checkValue (env : Env) (frag : Sch) (v : Value) : Bool :=
  (checkType (env.vt frag) v ++ env.others frag v).isEmpty

/-- `_error_message(path, error)` (validate.py lines 80-95): dot-join a list
path (str() applied to each element first, modelled by taking the elements
already stringified), truncate the error text beyond 2000 characters, and
prepend the attribute context. -/
def errorMessage (path : String ⊕ List String) (error : String) : String :=
  let name :=
    match path with
    | .inr spath => String.intercalate "." spath
    | .inl p => p
  let error :=
    if error.length > 2000 then (error.take 1996) ++ " ..." else error
  "While validating " ++ name ++ " the following error occurred:\n" ++ error

/-- Result of `_value_change`: the update flag, and the warnings emitted. -/
structure VRes where
  update : Bool
  warnings : List String
deriving DecidableEq

/-- `_value_change(path, value, schema, pass_invalid_values, strict_validation,
ctx)` (stnode.py lines 62-81): validate, trap the error; on failure the
update flag is False unless `pass_invalid_values`; strict mode re-raises the
contextualized message (`.error`), otherwise it is emitted as a
`ValidationWarning`. -/
def valueChange (env : Env) (path : String) (value : Value) (schema : Sch)
    (passInvalidValues strictV : Bool) : Except String VRes :=
  if checkValue env schema value then .ok ⟨true, []⟩
  else
    let errmsg := errorMessage (.inl path) (env.errText schema value)
    if strictV then .error errmsg
    else .ok ⟨passInvalidValues, [errmsg]⟩

/-- The exceptions one write can raise: `jsonschema.ValidationError` (origin/
telescope hard checks, strict-mode re-raise), `AttributeError` from the
missing-key branch, `AttributeError` on `None` during schema resolution
(`self._parent._schema()` with `_parent = None`, or `None.get(...)` when the
parent is a plain `DNode` whose `_schema()` returns `None`), and the
`IndexError` of `key[0]` on an empty key. -/
inductive SErr where
  | valErr (msg : String)
  | attrNotFound (msg : String)
  | noneTypeAttr
  | indexErr
deriving DecidableEq

/-- Outcome of `DNode.__setattr__`: the node state when control returns or the
exception escapes, the `ValidationWarning`s emitted, and the exception if one
was raised. -/
structure SetRes where
  node : Node
  warnings : List String
  err : Option SErr

/-- The body of `DNode._schema` / `TaggedObjectNode._schema` as run by
`__setattr__` (stnode.py lines 237-246 and 313-316): skip if `_x_schema` is
cached; a tagged node fetches its own document; a plain node asks its parent —
`None` parents raise, plain-`DNode` parents return `None` from `_schema()` so
the subsequent `_get_schema_for_property(None, name)` raises, tagged parents
return their document, from which the subschema for `self._name` is extracted
(a `None` name matches no string key, giving the empty fragment). -/
def resolveXSchema (n : Node) : Except SErr Sch :=
  match n.xschema with
  | some s => .ok s
  | none =>
    match n.kind with
    | .taggedK s => .ok s
    | .plainK .noneP _ => .error .noneTypeAttr
    | .plainK .plainP _ => .error .noneTypeAttr
    | .plainK (.taggedP ps) name =>
      match name with
      | some nm => .ok (getSchemaForProperty ps nm)
      | none => .ok emptySch

/-- The subschema lookup inlined in `DNode.__setattr__` (stnode.py lines
188-203): read `.get('properties')`; when that dict exists its direct entry is
final (`schema.get(key, None)` — no combiner fallback); when it is absent, the
double loop over `allOf` then `anyOf` binds the first non-empty recursive
result but its `break` leaves only the inner loop, so a first `anyOf` match
overwrites a first `allOf` match. -/
def setattrLookup (xs : Sch) (key : String) : Option Sch :=
  match xs.propsOf with
  | some ps => List.lookup key ps
  | none =>
    match searchCombiner xs.anyOfD key with
    | some r => some r
    | none => searchCombiner xs.allOfD key

/-- `DNode.__setattr__(key, value)` (stnode.py lines 175-211).  Private keys go
to `self.__dict__`; the `origin` / `telescope` membership checks run before
everything else; the value is promoted through the scalar-key table; a missing
key raises `AttributeError`; with validation on, the schema is resolved and the
inlined lookup consulted, `_validate` (= `_value_change` with
`pass_invalid_values=False` and the global strict flag, the tagged-tree
conversion being absorbed into `env.vt`/`env.errText`) decides the update
flag — and the trailing `self.__dict__['_data'][key] = value` (line 206) then
stores into the same raw dict unconditionally on every non-raising path. -/
def setattrN (env : Env) (n : Node) (key : String) (value : Value) : SetRes :=
  if key = "" then ⟨n, [], some .indexErr⟩
  else if key.front = '_' then
    ⟨{ n with privates := updAssoc n.privates key value }, [], none⟩
  else if key = "origin" ∧ ¬ pyStrIn value validOriginL then
    ⟨n, [], some (.valErr "origin must be one of [STSCI, IPAC/SSC]")⟩
  else if key = "telescope" ∧ ¬ pyStrIn value validTelescopeL then
    ⟨n, [], some (.valErr "telescope must be one of [ROMAN]")⟩
  else
    let value := convertToScalar env.scalarKeys key value
    if (List.lookup key n.data).isSome then
      if env.validate then
        match resolveXSchema n with
        | .error e => ⟨n, [], some e⟩
        | .ok xs =>
          let n1 : Node := { n with xschema := some xs }
          match setattrLookup xs key with
          | none => ⟨{ n1 with data := updAssoc n1.data key value }, [], none⟩
          | some frag =>
            match valueChange env key value frag false env.strict_validation with
            | .error msg => ⟨n1, [], some (.valErr msg)⟩
            | .ok r =>
              let n2 : Node :=
                if r.update then { n1 with data := updAssoc n1.data key value }
                else n1
              ⟨{ n2 with data := updAssoc n2.data key value }, r.warnings, none⟩
      else ⟨{ n with data := updAssoc n.data key value }, [], none⟩
    else
      ⟨n, [],
        some (.attrNotFound ("No such attribute (" ++ key ++ ") found in node"))⟩

/-- Modelled from the spec: `STUserDict` (file `stuserdict.py`, not under
`src/`) supplies `DNode`'s inherited mapping interface; per the spec's data
model the mapping node "wraps a mapping from string key to arbitrary value",
so iterating the node (`self.items()`) exposes the raw entries of the wrapped
mapping, and the inherited `__setitem__` stores into it. -/
def Node.itemsOf (n : Node) : List (String × Value) := n.data

/-- The `convert_val` closure of `DNode.to_flat_dict` (stnode.py lines
224-229): datetimes to `isoformat()`, astropy `Time` to `str()`. -/
def convertVal : Value → Value
  | .datetime_ iso => .str iso
  | .time_ s => .str s
  | v => v

/-- `isinstance(val, (np.ndarray, ndarray.NDArrayType))`. -/
def isNdarray : Value → Bool
  | .ndarr _ => true
  | _ => false

/-- `DNode.to_flat_dict(include_arrays)` (stnode.py lines 213-235): a dict
comprehension over `self.items()`, converting each value, and filtering out
array-valued entries when `include_arrays` is false. -/
def toFlatDict (includeArrays : Bool) (n : Node) : List (String × Value) :=
  if includeArrays then
    n.itemsOf.map (fun kv => (kv.1, convertVal kv.2))
  else
    (n.itemsOf.filter (fun kv => ¬ isNdarray kv.2)).map
      (fun kv => (kv.1, convertVal kv.2))

/-- `DNode.__setitem__(key, value)` (stnode.py lines 251-256): promote the
value by key, promote each immediate sub-value of a dict value by its sub-key,
then `super().__setitem__` stores into the raw mapping (the store is the
spec-modelled `STUserDict` behavior, see `Node.itemsOf`).  No existence check,
no schema lookup, no use of the validation flags. -/
def setitemN (scalarKeys : List String) (n : Node) (key : String)
    (value : Value) : Node :=
  let value := convertToScalar scalarKeys key value
  let value :=
    match value with
    | .map_ entries =>
      .map_ (entries.map (fun kv => (kv.1, convertToScalar scalarKeys kv.1 kv.2)))
    | v => v
  { n with data := updAssoc n.data key value }

/-- What `LNode.__getitem__` can hand back: a freshly wrapped mapping node, a
freshly wrapped sequence node, or the raw value. -/
inductive LGet where
  | dnodeR (n : Node)
  | lnodeR (xs : List Value)
  | plainR (v : Value)

/-- `LNode.__getitem__(index)` (stnode.py lines 273-280): fetch
`self.data[index]` (out of range raises `IndexError`, modelled as `none`);
a dict element is wrapped as `DNode(value)` — both `parent` and `name` default
to `None` and `_x_schema` starts unset — a list element as `LNode(value)`,
anything else is returned as is. -/
def lnodeGetitem (data : List Value) (i : Nat) : Option LGet :=
  match data.get? i with
  | none => none
  | some (.map_ entries) =>
    some (.dnodeR ⟨entries, none, .plainK .noneP none, []⟩)
  | some (.list_ xs) => some (.lnodeR xs)
  | some v => some (.plainR v)

/-- `_scalar_tag_to_key(tag)` (stnode.py lines 356-357):
`tag.split('/')[-1].split('-')[0]`. -/
def scalarTagToKey (tag : String) : String :=
  (((tag.splitOn "/").getLastD "").splitOn "-").headD ""

/-- `TaggedObjectNodeMeta.__init__` (stnode.py lines 289-301): every class
except the base `TaggedObjectNode` is registered into
`_OBJECT_NODE_CLASSES_BY_TAG` by its `_tag`; a tag already present is a fatal
`RuntimeError`.  Classes are identified by name. -/
def registerObjectClass (reg : List (String × String)) (clsName tag : String) :
    Except String (List (String × String)) :=
  if clsName = "TaggedObjectNode" then .ok reg
  else if (List.lookup tag reg).isSome then
    .error ("TaggedObjectNode class for tag " ++ tag ++ " has been defined twice")
  else .ok (updAssoc reg tag clsName)

/-- `TaggedListNodeMeta.__init__` (stnode.py lines 330-342): same guard for
`_LIST_NODE_CLASSES_BY_TAG`. -/
def registerListClass (reg : List (String × String)) (clsName tag : String) :
    Except String (List (String × String)) :=
  if clsName = "TaggedListNode" then .ok reg
  else if (List.lookup tag reg).isSome then
    .error ("TaggedListNode class for tag " ++ tag ++ " has been defined twice")
  else .ok (updAssoc reg tag clsName)

/-- `TaggedScalarNodeMeta.__init__` (stnode.py lines 360-373): same guard for
`_SCALAR_NODE_CLASSES_BY_TAG`; on success the class is also entered into
`_SCALAR_NODE_CLASSES_BY_KEY` under `_scalar_tag_to_key(tag)` (a plain dict
assignment, no duplicate guard there). -/
def registerScalarClass (regTag regKey : List (String × String))
    (clsName tag : String) :
    Except String (List (String × String) × List (String × String)) :=
  if clsName = "TaggedScalarNode" then .ok (regTag, regKey)
  else if (List.lookup tag regTag).isSome then
    .error ("TaggedScalarNode class for tag " ++ tag ++ " has been defined twice")
  else .ok (updAssoc regTag tag clsName, updAssoc regKey (scalarTagToKey tag) clsName)

/-- A sequence of class definitions (name, tag) processed by
`TaggedObjectNodeMeta` in order, as class synthesis does at import time. -/
def foldRegisterObject (defs : List (String × String)) :
    Except String (List (String × String)) :=
  defs.foldlM (fun reg p => registerObjectClass reg p.1 p.2) []

mutual

/-- The subschema-lookup algorithm as the claim states it: check the direct
`properties` entry first; if absent, iterate every `allOf` branch and then
every `anyOf` branch in order, recursing into each branch with the same
algorithm, first non-empty result wins; if nothing is found after exhausting
all branches, return the empty fragment. -/
def lookupClaimAlg : Sch → String → Sch
  | Sch.mk props aof ayf _, key =>
    match props.bind (fun ps => List.lookup key ps) with
    | some r => r
    | none => claimBranches (aof.getD []) (ayf.getD []) key
termination_by s _ => sizeOf s
decreasing_by
  cases aof <;> cases ayf <;> simp <;> omega

/-- "every `allOf` branch and then every `anyOf` branch in order ... the first
non-empty result wins": one sequential scan through the `allOf` branches
followed by the `anyOf` branches. -/
def claimBranches : List Sch → List Sch → String → Sch
  | [], [], _ => emptySch
  | [], b :: rest, key =>
    let r := lookupClaimAlg b key
    if r.isEmptyDict then claimBranches [] rest key else r
  | b :: rest, l2, key =>
    let r := lookupClaimAlg b key
    if r.isEmptyDict then claimBranches rest l2 key else r
termination_by l1 l2 _ => sizeOf l1 + sizeOf l2
decreasing_by
  all_goals first
    | (simp; omega)
    | simp

end

/-- First branch of a combiner list whose full recursive lookup (the claimed
algorithm) is non-empty; used to characterize the write-path lookup. -/
def firstNonEmptyAlg : List Sch → String → Option Sch
  | [], _ => none
  | b :: rest, key =>
    let r := lookupClaimAlg b key
    if r.isEmptyDict then firstNonEmptyAlg rest key else some r

/-- The write-path lookup as it actually behaves (the amended claim): a
present `properties` dict is final — its direct entry or nothing, combiners
never consulted; with no `properties` dict, each combiner list is scanned for
its first branch with a non-empty recursive result, and an `anyOf` hit
overrides an `allOf` hit. -/
def writeLookupAmended (s : Sch) (key : String) : Option Sch :=
  match s.propsOf with
  | some ps => List.lookup key ps
  | none =>
    match firstNonEmptyAlg s.anyOfD key with
    | some r => some r
    | none => firstNonEmptyAlg s.allOfD key

/-- Discriminator: is this exception the `AttributeError` of the missing-key
branch of `__setattr__`? -/
def isAttrNotFoundErr : Option SErr → Bool
  | some (.attrNotFound _) => true
  | _ => false

theorem claimBranches_split (k : String) :
    ∀ l1 l2, (∀ b ∈ l1, getSchemaForProperty b k = lookupClaimAlg b k) →
      claimBranches l1 l2 k =
        (match searchCombiner l1 k with
         | some r => r
         | none => claimBranches [] l2 k) := by
  intro l1
  induction l1 with
  | nil =>
    intro l2 _
    simp [searchCombiner]
  | cons b rest ih =>
    intro l2 hmem
    have hb : getSchemaForProperty b k = lookupClaimAlg b k := hmem b (by simp)
    have hrest : ∀ b' ∈ rest, getSchemaForProperty b' k = lookupClaimAlg b' k :=
      fun b' h => hmem b' (by simp [h])
    simp only [claimBranches, searchCombiner, ← hb]
    cases hE : (getSchemaForProperty b k).isEmptyDict with
    | true =>
      simp only [hE, if_true]
      exact ih l2 hrest
    | false =>
      simp [hE]

theorem claimBranches_nil (k : String) :
    ∀ l2, (∀ b ∈ l2, getSchemaForProperty b k = lookupClaimAlg b k) →
      claimBranches [] l2 k =
        (match searchCombiner l2 k with
         | some r => r
         | none => emptySch) := by
  intro l2
  induction l2 with
  | nil =>
    intro _
    simp [claimBranches, searchCombiner]
  | cons b rest ih =>
    intro hmem
    have hb : getSchemaForProperty b k = lookupClaimAlg b k := hmem b (by simp)
    have hrest : ∀ b' ∈ rest, getSchemaForProperty b' k = lookupClaimAlg b' k :=
      fun b' h => hmem b' (by simp [h])
    simp only [claimBranches, searchCombiner, ← hb]
    cases hE : (getSchemaForProperty b k).isEmptyDict with
    | true =>
      simp only [hE, if_true]
      exact ih hrest
    | false =>
      simp [hE]

theorem sizeOf_branch_lt (props : Option (List (String × Sch)))
    (aof ayf : Option (List Sch)) (ex : List String) (b : Sch)
    (h : b ∈ aof.getD [] ∨ b ∈ ayf.getD []) :
    sizeOf b < sizeOf (Sch.mk props aof ayf ex) := by
  rcases h with h | h
  · cases aof with
    | none => simp at h
    | some l =>
      have := List.sizeOf_lt_of_mem h
      simp at this ⊢
      omega
  · cases ayf with
    | none => simp at h
    | some l =>
      have := List.sizeOf_lt_of_mem h
      simp at this ⊢
      omega

theorem gsp_eq_alg (s : Sch) (k : String) :
    getSchemaForProperty s k = lookupClaimAlg s k := by
  have H : ∀ n (s : Sch), sizeOf s < n → getSchemaForProperty s k = lookupClaimAlg s k := by
    intro n
    induction n with
    | zero => intro s h; omega
    | succ n ih =>
      intro s hs
      obtain ⟨props, aof, ayf, ex⟩ := s
      have hmem : ∀ b, b ∈ aof.getD [] ∨ b ∈ ayf.getD [] →
          getSchemaForProperty b k = lookupClaimAlg b k := by
        intro b hb
        exact ih b (by have := sizeOf_branch_lt props aof ayf ex b hb; omega)
      cases hpb : props.bind (fun ps => List.lookup k ps) with
      | some r =>
        rw [getSchemaForProperty, lookupClaimAlg, hpb]
      | none =>
        rw [getSchemaForProperty, lookupClaimAlg, hpb]
        rw [claimBranches_split k (aof.getD []) (ayf.getD [])
          (fun b hb => hmem b (Or.inl hb))]
        rw [claimBranches_nil k (ayf.getD []) (fun b hb => hmem b (Or.inr hb))]
  exact H (sizeOf s + 1) s (by omega)

theorem searchCombiner_eq_firstNonEmpty (l : List Sch) (k : String) :
    searchCombiner l k = firstNonEmptyAlg l k := by
  induction l with
  | nil => simp [searchCombiner, firstNonEmptyAlg]
  | cons b rest ih =>
    simp only [searchCombiner, firstNonEmptyAlg, gsp_eq_alg, ih]

theorem setattrLookup_eq_amended (s : Sch) (k : String) :
    setattrLookup s k = writeLookupAmended s k := by
  cases h : s.propsOf with
  | some ps => simp [setattrLookup, writeLookupAmended, h]
  | none =>
    simp [setattrLookup, writeLookupAmended, h, searchCombiner_eq_firstNonEmpty]

/-- C3 (amended): the standalone resolver `_get_schema_for_property` follows
the claimed algorithm exactly (direct `properties` entry first, then every
`allOf` branch, then every `anyOf` branch, in order, recursing, first
non-empty result wins, empty fragment if nothing is found).  The lookup
inlined in `DNode.__setattr__`, however, follows a different algorithm: a
present `properties` dict is final (a key missing from it means no constraint
— the combiners are never consulted), and when no `properties` dict exists,
the first non-empty `anyOf` match overrides the first non-empty `allOf`
match (the `break` only leaves the inner loop). -/
theorem c3_lookup_amended (s : Sch) (k : String) :
    getSchemaForProperty s k = lookupClaimAlg s k ∧
    setattrLookup s k = writeLookupAmended s k :=
  ⟨gsp_eq_alg s k, setattrLookup_eq_amended s k⟩

/-- C3 (counterexample): for the schema
`\x7bproperties: \x7bx: \x7b\x7d\x7d, allOf: [\x7bproperties: \x7by: F\x7d\x7d]\x7d`
with `F` non-empty, the claimed algorithm (and `_get_schema_for_property`)
finds `F` for key `y`, but the write-path lookup returns no constraint, so a
validated strict-mode write of a value that `F` rejects is committed without
any error — the write path does not iterate the `allOf` branches once a
`properties` dict is present. -/
theorem c3_write_lookup_counterexample :
    setattrLookup
      (Sch.mk (some [("x", emptySch)])
        (some [Sch.mk (some [("y", Sch.mk none none none ["type"])]) none none []])
        none []) "y" = none ∧
    getSchemaForProperty
      (Sch.mk (some [("x", emptySch)])
        (some [Sch.mk (some [("y", Sch.mk none none none ["type"])]) none none []])
        none []) "y" = Sch.mk none none none ["type"] ∧
    (Sch.mk none none none ["type"]).isEmptyDict = false ∧
    checkValue ⟨true, true, fun _ _ => ["bad type"], fun _ _ => [], fun _ _ => "bad type", []⟩
      (Sch.mk none none none ["type"]) (.str "zzz") = false ∧
    (setattrN ⟨true, true, fun _ _ => ["bad type"], fun _ _ => [], fun _ _ => "bad type", []⟩
      ⟨[("y", .int_ 0)], none,
        .taggedK (Sch.mk (some [("x", emptySch)])
          (some [Sch.mk (some [("y", Sch.mk none none none ["type"])]) none none []])
          none []), []⟩
      "y" (.str "zzz")).err = none ∧
    List.lookup "y"
      (setattrN ⟨true, true, fun _ _ => ["bad type"], fun _ _ => [], fun _ _ => "bad type", []⟩
        ⟨[("y", .int_ 0)], none,
          .taggedK (Sch.mk (some [("x", emptySch)])
            (some [Sch.mk (some [("y", Sch.mk none none none ["type"])]) none none []])
            none []), []⟩
        "y" (.str "zzz")).node.data = some (.str "zzz") := by
  refine ⟨rfl, ?_, rfl, rfl, rfl, rfl⟩
  have hb : getSchemaForProperty
      (Sch.mk (some [("y", Sch.mk none none none ["type"])]) none none []) "y" =
      Sch.mk none none none ["type"] := by
    rw [getSchemaForProperty]
    rfl
  have hsc : searchCombiner
      [Sch.mk (some [("y", Sch.mk none none none ["type"])]) none none []] "y" =
      some (Sch.mk none none none ["type"]) := by
    rw [searchCombiner, hb]
    rfl
  rw [getSchemaForProperty]
  simp only [Option.getD_some]
  rw [hsc]
  rfl

/-- C4: with validation enabled and strict mode on, writing (to a non-private,
non-empty key that passes the unconditional origin/telescope membership
checks, which the claim's "violates the resolved schema fragment" premise
presupposes surviving) a value that the resolved fragment rejects leaves the
stored data unchanged and raises a `jsonschema.ValidationError` whose message
contains the attribute path. -/
theorem c4_strict_invalid_write_raises
    (env : Env) (n : Node) (key : String) (value old : Value) (xs frag : Sch)
    (hk0 : key ≠ "")
    (hk1 : key.front ≠ '_')
    (hor : key = "origin" → pyStrIn value validOriginL = true)
    (htel : key = "telescope" → pyStrIn value validTelescopeL = true)
    (hpresent : List.lookup key n.data = some old)
    (hval : env.validate = true)
    (hstrict : env.strict_validation = true)
    (hres : resolveXSchema n = .ok xs)
    (hlook : setattrLookup xs key = some frag)
    (hfail : checkValue env frag (convertToScalar env.scalarKeys key value) = false) :
    ∃ msg,
      setattrN env n key value =
        ⟨{ n with xschema := some xs }, [], some (.valErr msg)⟩ ∧
      (setattrN env n key value).node.data = n.data ∧
      ∃ pre post, msg = pre ++ (key ++ post) := by
  have hnor : ¬(key = "origin" ∧ ¬ pyStrIn value validOriginL = true) := by
    rintro ⟨h1, h2⟩
    exact h2 (hor h1)
  have hntel : ¬(key = "telescope" ∧ ¬ pyStrIn value validTelescopeL = true) := by
    rintro ⟨h1, h2⟩
    exact h2 (htel h1)
  have hmain :
      setattrN env n key value =
        ⟨{ n with xschema := some xs }, [],
          some (.valErr (errorMessage (Sum.inl key)
            (env.errText frag (convertToScalar env.scalarKeys key value))))⟩ := by
    simp only [setattrN, hk0, hk1, hnor, hntel, hpresent, hval, hres, hlook,
      valueChange, hfail, hstrict, if_false, if_true, ite_false, ite_true,
      Option.isSome_some, Bool.false_eq_true, if_neg, reduceIte]
  refine ⟨errorMessage (Sum.inl key)
    (env.errText frag (convertToScalar env.scalarKeys key value)), hmain, ?_, ?_⟩
  · rw [hmain]
  · refine ⟨"While validating ",
      " the following error occurred:\n" ++
        (if (env.errText frag (convertToScalar env.scalarKeys key value)).length > 2000
          then (env.errText frag (convertToScalar env.scalarKeys key value)).take 1996 ++ " ..."
          else env.errText frag (convertToScalar env.scalarKeys key value)), ?_⟩
    simp [errorMessage, String.append_assoc]

/-- Witness for C4 at a concrete input: a tagged node with data
`\x7bx: "old"\x7d`, schema `\x7bproperties: \x7bx: \x7btype: ...\x7d\x7d\x7d`, an external
checker that rejects `"new"`, validation on, strict on. -/
theorem c4_strict_invalid_write_raises_witness :
    ∃ msg,
      setattrN ⟨true, true, fun _ _ => ["bad"], fun _ _ => [], fun _ _ => "bad", []⟩
        ⟨[("x", .str "old")], none,
          .taggedK (Sch.mk (some [("x", Sch.mk none none none ["type"])]) none none []),
          []⟩ "x" (.str "new") =
        ⟨⟨[("x", .str "old")],
          some (Sch.mk (some [("x", Sch.mk none none none ["type"])]) none none []),
          .taggedK (Sch.mk (some [("x", Sch.mk none none none ["type"])]) none none []),
          []⟩, [], some (.valErr msg)⟩ ∧
      (setattrN ⟨true, true, fun _ _ => ["bad"], fun _ _ => [], fun _ _ => "bad", []⟩
        ⟨[("x", .str "old")], none,
          .taggedK (Sch.mk (some [("x", Sch.mk none none none ["type"])]) none none []),
          []⟩ "x" (.str "new")).node.data = [("x", .str "old")] ∧
      ∃ pre post, msg = pre ++ ("x" ++ post) :=
  c4_strict_invalid_write_raises
    ⟨true, true, fun _ _ => ["bad"], fun _ _ => [], fun _ _ => "bad", []⟩
    ⟨[("x", .str "old")], none,
      .taggedK (Sch.mk (some [("x", Sch.mk none none none ["type"])]) none none []),
      []⟩ "x" (.str "new") (.str "old")
    (Sch.mk (some [("x", Sch.mk none none none ["type"])]) none none [])
    (Sch.mk none none none ["type"])
    (by decide) (by decide) (by decide) (by decide) rfl rfl rfl rfl rfl rfl

/-- C1 (code-bug evidence): with validation enabled and strict mode off, a
write whose value the resolved fragment rejects emits exactly one
`ValidationWarning` and raises nothing — but the unconditional
`self.__dict__['_data'][key] = value` on stnode.py line 206 (which makes the
guarded commit on line 205 dead code and defeats `_value_change`'s update
flag) commits the rejected value, so the previously stored value is NOT left
unchanged as the claim and the spec state. -/
theorem c1_warn_mode_commits_rejected_value :
    (setattrN ⟨true, false, fun _ _ => ["bad"], fun _ _ => [], fun _ _ => "bad", []⟩
      ⟨[("x", .str "old")], none,
        .taggedK (Sch.mk (some [("x", Sch.mk none none none ["type"])]) none none []),
        []⟩ "x" (.str "new")).err = none ∧
    (setattrN ⟨true, false, fun _ _ => ["bad"], fun _ _ => [], fun _ _ => "bad", []⟩
      ⟨[("x", .str "old")], none,
        .taggedK (Sch.mk (some [("x", Sch.mk none none none ["type"])]) none none []),
        []⟩ "x" (.str "new")).warnings = [errorMessage (Sum.inl "x") "bad"] ∧
    List.lookup "x"
      (setattrN ⟨true, false, fun _ _ => ["bad"], fun _ _ => [], fun _ _ => "bad", []⟩
        ⟨[("x", .str "old")], none,
          .taggedK (Sch.mk (some [("x", Sch.mk none none none ["type"])]) none none []),
          []⟩ "x" (.str "new")).node.data = some (.str "new") ∧
    some (Value.str "new") ≠ some (Value.str "old") := by
  refine ⟨rfl, rfl, rfl, ?_⟩
  simp

/-- C8 (counterexample): a null value short-circuits only the `type` keyword.
Against a fragment carrying an `enum` keyword, the enum callback of
`YAML_VALIDATORS` — which `_check_value`'s validator runs unchanged — rejects
a None instance (None is not one of the enumerated values), so the engine
does not accept: strict mode raises, warn mode emits a warning and rejects.
The type check itself does yield no errors for None (first conjunct). -/
theorem c8_null_enum_counterexample :
    checkType
      ((fun _ _ => ([] : List String)) (Sch.mk none none none ["enum"]))
      Value.null = [] ∧
    checkValue
      ⟨true, true, fun _ _ => [], fun _ _ => ["None is not one of [STSCI]"],
        fun _ _ => "None is not one of [STSCI]", []⟩
      (Sch.mk none none none ["enum"]) .null = false ∧
    valueChange
      ⟨true, true, fun _ _ => [], fun _ _ => ["None is not one of [STSCI]"],
        fun _ _ => "None is not one of [STSCI]", []⟩
      "origin" .null (Sch.mk none none none ["enum"]) false true =
      .error (errorMessage (Sum.inl "origin") "None is not one of [STSCI]") ∧
    valueChange
      ⟨true, true, fun _ _ => [], fun _ _ => ["None is not one of [STSCI]"],
        fun _ _ => "None is not one of [STSCI]", []⟩
      "origin" .null (Sch.mk none none none ["enum"]) false false =
      .ok ⟨false, [errorMessage (Sum.inl "origin") "None is not one of [STSCI]"]⟩ :=
  ⟨rfl, rfl, rfl, rfl⟩

/-- C8 (amended): a null value short-circuits the engine's TYPE check —
`_check_type` yields no errors for a None instance whatever the external
`validate_type` callback reports — but the other `YAML_VALIDATORS` keyword
callbacks still run on a None instance, so evaluating null returns accept
with no error raised and no warning emitted, under any failure policy,
exactly when those remaining keyword validators report no error for it. -/
theorem c8_null_type_check_amended (env : Env) (path : String) (frag : Sch)
    (passInvalidValues strictV : Bool) :
    checkType (env.vt frag) .null = [] ∧
    (env.others frag .null = [] →
      valueChange env path .null frag passInvalidValues strictV =
        .ok ⟨true, []⟩) := by
  constructor
  · rfl
  · intro h
    simp [valueChange, checkValue, checkType, h]

/-- Witness for C8's amended theorem: an external type callback that rejects
everything still produces no type errors for null, and with the remaining
keyword validators accepting, strict-mode evaluation of null returns accept
with no warning. -/
theorem c8_null_type_check_amended_witness :
    checkType
      ((fun _ _ => ["bad type"] : Sch → Value → List String) emptySch)
      Value.null = [] ∧
    valueChange
      ⟨true, true, fun _ _ => ["bad type"], fun _ _ => [], fun _ _ => "", []⟩
      "p" .null emptySch false true = .ok ⟨true, []⟩ :=
  ⟨(c8_null_type_check_amended
      ⟨true, true, fun _ _ => ["bad type"], fun _ _ => [], fun _ _ => "", []⟩
      "p" emptySch false true).1,
    (c8_null_type_check_amended
      ⟨true, true, fun _ _ => ["bad type"], fun _ _ => [], fun _ _ => "", []⟩
      "p" emptySch false true).2 rfl⟩

theorem lookup_updAssoc {α : Type} (d : List (String × α)) (k : String) (v : α) :
    List.lookup k (updAssoc d k v) = some v := by
  induction d with
  | nil => simp [updAssoc, List.lookup]
  | cons p rest ih =>
    obtain ⟨k', v'⟩ := p
    by_cases h : k' = k
    · simp [updAssoc, h, List.lookup]
    · have hb : (k == k') = false := beq_eq_false_iff_ne.mpr (Ne.symm h)
      simp [updAssoc, h, List.lookup, hb, ih]

theorem lookup_updAssoc_ne {α : Type} (d : List (String × α)) (k k2 : String)
    (v : α) (h : k2 ≠ k) :
    List.lookup k2 (updAssoc d k v) = List.lookup k2 d := by
  have hbk : (k2 == k) = false := beq_eq_false_iff_ne.mpr h
  induction d with
  | nil => simp [updAssoc, List.lookup, hbk]
  | cons p rest ih =>
    obtain ⟨k', v'⟩ := p
    by_cases h2 : k' = k
    · subst h2
      simp [updAssoc, List.lookup, hbk, ih]
    · simp [updAssoc, h2, List.lookup, ih]

/-- C5 (amended): a write to a non-empty, non-private key that is absent from
the raw mapping fails with `AttributeError` regardless of the state of the
validation flags — provided the unconditional origin/telescope membership
checks (which run first and raise `jsonschema.ValidationError` instead when
they fail) pass. -/
theorem c5_absent_key_amended (env : Env) (n : Node) (key : String)
    (value : Value)
    (hk0 : key ≠ "") (hk1 : key.front ≠ '_')
    (hor : key = "origin" → pyStrIn value validOriginL = true)
    (htel : key = "telescope" → pyStrIn value validTelescopeL = true)
    (habsent : List.lookup key n.data = none) :
    setattrN env n key value =
      ⟨n, [],
        some (.attrNotFound ("No such attribute (" ++ key ++ ") found in node"))⟩ := by
  have hnor : ¬(key = "origin" ∧ ¬ pyStrIn value validOriginL = true) := by
    rintro ⟨h1, h2⟩
    exact h2 (hor h1)
  have hntel : ¬(key = "telescope" ∧ ¬ pyStrIn value validTelescopeL = true) := by
    rintro ⟨h1, h2⟩
    exact h2 (htel h1)
  simp only [setattrN, hk0, hk1, hnor, hntel, habsent, Option.isSome_none,
    Bool.false_eq_true, if_false, ite_false, if_neg, reduceIte]

/-- Witness for C5's amended theorem: writing any value to the key `x`, absent
from an empty node, fails with the `AttributeError` of the missing-key
branch, with validation and strict mode both on. -/
theorem c5_absent_key_amended_witness :
    setattrN ⟨true, true, fun _ _ => [], fun _ _ => [], fun _ _ => "", []⟩
      ⟨[], none, .taggedK emptySch, []⟩ "x" .null =
      ⟨⟨[], none, .taggedK emptySch, []⟩, [],
        some (.attrNotFound ("No such attribute (" ++ "x" ++ ") found in node"))⟩ :=
  c5_absent_key_amended ⟨true, true, fun _ _ => [], fun _ _ => [], fun _ _ => "", []⟩
    ⟨[], none, .taggedK emptySch, []⟩ "x" .null
    (by decide) (by decide) (by decide) (by decide) rfl

/-- C5 (counterexample): the key `origin` is absent from an empty node, yet
writing `origin = "ESA"` raises the unconditional `jsonschema.ValidationError`
of the origin membership check, not `AttributeNotFound` — so the claim's
"always fails with an AttributeNotFound error" is false as stated. -/
theorem c5_absent_origin_counterexample :
    List.lookup "origin" ([] : List (String × Value)) = none ∧
    setattrN ⟨true, true, fun _ _ => [], fun _ _ => [], fun _ _ => "", []⟩
      ⟨[], none, .taggedK emptySch, []⟩ "origin" (.str "ESA") =
      ⟨⟨[], none, .taggedK emptySch, []⟩, [],
        some (.valErr "origin must be one of [STSCI, IPAC/SSC]")⟩ ∧
    isAttrNotFoundErr (some (.valErr "origin must be one of [STSCI, IPAC/SSC]")) =
      false :=
  ⟨rfl, rfl, rfl⟩

/-- C6 (amended): the `origin` and `telescope` membership checks are
unconditional — any value outside the fixed enumeration raises
`jsonschema.ValidationError` whatever the flags and whatever the node — and
writing `origin = "STSCI"` to a node whose raw mapping has the key succeeds
(commits, no warning, no error) provided validation is disabled, or the
node's schema resolution succeeds and any fragment the write-path lookup
finds accepts the promoted value.  (As stated, "always succeeds if the key
pre-exists" is false: with validation enabled an orphan node raises during
schema resolution — see the counterexample.) -/
theorem c6_origin_telescope_amended :
    (∀ (env : Env) (n : Node) (value : Value),
      pyStrIn value validOriginL = false →
      setattrN env n "origin" value =
        ⟨n, [], some (.valErr "origin must be one of [STSCI, IPAC/SSC]")⟩) ∧
    (∀ (env : Env) (n : Node) (value : Value),
      pyStrIn value validTelescopeL = false →
      setattrN env n "telescope" value =
        ⟨n, [], some (.valErr "telescope must be one of [ROMAN]")⟩) ∧
    (∀ (env : Env) (n : Node) (old : Value),
      env.validate = false →
      List.lookup "origin" n.data = some old →
      (setattrN env n "origin" (.str "STSCI")).err = none ∧
      List.lookup "origin" (setattrN env n "origin" (.str "STSCI")).node.data =
        some (convertToScalar env.scalarKeys "origin" (.str "STSCI")) ∧
      (setattrN env n "origin" (.str "STSCI")).warnings = []) ∧
    (∀ (env : Env) (n : Node) (old : Value) (xs : Sch),
      env.validate = true →
      List.lookup "origin" n.data = some old →
      resolveXSchema n = .ok xs →
      (∀ frag, setattrLookup xs "origin" = some frag →
        checkValue env frag
          (convertToScalar env.scalarKeys "origin" (.str "STSCI")) = true) →
      (setattrN env n "origin" (.str "STSCI")).err = none ∧
      List.lookup "origin" (setattrN env n "origin" (.str "STSCI")).node.data =
        some (convertToScalar env.scalarKeys "origin" (.str "STSCI")) ∧
      (setattrN env n "origin" (.str "STSCI")).warnings = []) := by
  refine ⟨?_, ?_, ?_, ?_⟩
  · intro env n value h
    have hf : "origin".front ≠ '_' := by decide
    simp [setattrN, h, hf]
  · intro env n value h
    have hf : "telescope".front ≠ '_' := by decide
    simp [setattrN, h, hf]
  · intro env n old hval hpresent
    have hf : "origin".front ≠ '_' := by decide
    have hvalid : pyStrIn (Value.str "STSCI") validOriginL = true := by decide
    have hmain :
        setattrN env n "origin" (.str "STSCI") =
          ⟨⟨updAssoc n.data "origin"
              (convertToScalar env.scalarKeys "origin" (.str "STSCI")),
            n.xschema, n.kind, n.privates⟩, [], none⟩ := by
      simp [setattrN, hval, hpresent, hvalid, hf]
    rw [hmain]
    exact ⟨rfl, lookup_updAssoc n.data "origin" _, rfl⟩
  · intro env n old xs hval hpresent hres hfrag
    have hf : "origin".front ≠ '_' := by decide
    have hvalid : pyStrIn (Value.str "STSCI") validOriginL = true := by decide
    cases hlk : setattrLookup xs "origin" with
    | none =>
      have hmain :
          setattrN env n "origin" (.str "STSCI") =
            ⟨⟨updAssoc n.data "origin"
                (convertToScalar env.scalarKeys "origin" (.str "STSCI")),
              some xs, n.kind, n.privates⟩, [], none⟩ := by
        simp [setattrN, hval, hpresent, hres, hlk, hvalid, hf]
      rw [hmain]
      exact ⟨rfl, lookup_updAssoc n.data "origin" _, rfl⟩
    | some frag =>
      have hchk := hfrag frag hlk
      have hmain :
          setattrN env n "origin" (.str "STSCI") =
            ⟨⟨updAssoc (updAssoc n.data "origin"
                  (convertToScalar env.scalarKeys "origin" (.str "STSCI")))
                "origin" (convertToScalar env.scalarKeys "origin" (.str "STSCI")),
              some xs, n.kind, n.privates⟩, [], none⟩ := by
        simp [setattrN, hval, hpresent, hres, hlk, valueChange, hchk, hvalid, hf]
      rw [hmain]
      exact ⟨rfl, lookup_updAssoc _ "origin" _, rfl⟩

/-- Witness for C6's amended theorem: `origin = "ESA"` fails on an arbitrary
concrete node regardless of flags (both flags on here), and
`origin = "STSCI"` succeeds on a tagged node whose raw mapping has the key,
with validation on and an accepting external checker. -/
theorem c6_origin_telescope_amended_witness :
    setattrN ⟨true, true, fun _ _ => [], fun _ _ => [], fun _ _ => "", []⟩
      ⟨[("origin", .str "STSCI")], none, .taggedK emptySch, []⟩
      "origin" (.str "ESA") =
      ⟨⟨[("origin", .str "STSCI")], none, .taggedK emptySch, []⟩, [],
        some (.valErr "origin must be one of [STSCI, IPAC/SSC]")⟩ ∧
    ((setattrN ⟨true, true, fun _ _ => [], fun _ _ => [], fun _ _ => "", []⟩
        ⟨[("origin", .str "STSCI")], none, .taggedK emptySch, []⟩
        "origin" (.str "STSCI")).err = none ∧
      List.lookup "origin"
        (setattrN ⟨true, true, fun _ _ => [], fun _ _ => [], fun _ _ => "", []⟩
          ⟨[("origin", .str "STSCI")], none, .taggedK emptySch, []⟩
          "origin" (.str "STSCI")).node.data =
        some (convertToScalar [] "origin" (.str "STSCI")) ∧
      (setattrN ⟨true, true, fun _ _ => [], fun _ _ => [], fun _ _ => "", []⟩
        ⟨[("origin", .str "STSCI")], none, .taggedK emptySch, []⟩
        "origin" (.str "STSCI")).warnings = []) :=
  ⟨c6_origin_telescope_amended.1 ⟨true, true, fun _ _ => [], fun _ _ => [], fun _ _ => "", []⟩
      ⟨[("origin", .str "STSCI")], none, .taggedK emptySch, []⟩ (.str "ESA") rfl,
    c6_origin_telescope_amended.2.2.2 ⟨true, true, fun _ _ => [], fun _ _ => [], fun _ _ => "", []⟩
      ⟨[("origin", .str "STSCI")], none, .taggedK emptySch, []⟩ (.str "STSCI")
      emptySch rfl rfl rfl (fun _ _ => rfl)⟩

/-- C6 (counterexample): a mapping node whose parent is `None` (as produced by
wrapping a raw dict directly, or by `LNode.__getitem__`) has the `origin` key
pre-existing, yet with validation enabled the write `origin = "STSCI"` raises
an `AttributeError` inside `_schema()` (`self._parent` is `None`) — it does
not succeed, refuting "always succeeds if the key pre-exists". -/
theorem c6_origin_orphan_counterexample :
    List.lookup "origin" [("origin", Value.str "X")] = some (Value.str "X") ∧
    (setattrN ⟨true, true, fun _ _ => [], fun _ _ => [], fun _ _ => "", []⟩
      ⟨[("origin", .str "X")], none, .plainK .noneP none, []⟩
      "origin" (.str "STSCI")).err = some .noneTypeAttr ∧
    some SErr.noneTypeAttr ≠ (none : Option SErr) := by
  refine ⟨rfl, rfl, by simp⟩

/-- C2 (code-bug evidence): `DNode.to_flat_dict` iterates `self.items()`,
which yields the raw top-level entries of the wrapped mapping — the method
does NOT recurse, contradicting both the claim and its own docstring (which
promises dot-separated names like `meta.observation.date`).  On the claim's
own example `\x7ba: \x7bb: 1, c: [2, 3]\x7d\x7d` it returns the nested dict
unflattened, and with the include-arrays flag false it filters only
top-level array values, so an array nested one level down is not omitted. -/
theorem c2_to_flat_dict_shallow :
    toFlatDict true
      ⟨[("a", .map_ [("b", .int_ 1), ("c", .list_ [.int_ 2, .int_ 3])])],
        none, .taggedK emptySch, []⟩ =
      [("a", .map_ [("b", .int_ 1), ("c", .list_ [.int_ 2, .int_ 3])])] ∧
    toFlatDict true
      ⟨[("a", .map_ [("b", .int_ 1), ("c", .list_ [.int_ 2, .int_ 3])])],
        none, .taggedK emptySch, []⟩ ≠
      [("a.b", .int_ 1), ("a.c.0", .int_ 2), ("a.c.1", .int_ 3)] ∧
    toFlatDict false
      ⟨[("m", .map_ [("arr", .ndarr 0)])], none, .taggedK emptySch, []⟩ =
      [("m", .map_ [("arr", .ndarr 0)])] := by
  refine ⟨rfl, ?_, rfl⟩
  simp [toFlatDict, Node.itemsOf, convertVal]

/-- C9: dict-style item assignment on a mapping node commits unconditionally —
no key-existence check, no schema lookup, no use of the validation flags
(`setitemN` consumes only the scalar-key table) — after promoting the value
by key and, when the (promoted) value is a dict, promoting each of its
immediate sub-values by sub-key. -/
theorem c9_setitem_unchecked_commit (scalarKeys : List String) (n : Node)
    (key : String) (value : Value) :
    List.lookup key (setitemN scalarKeys n key value).data =
      some (match convertToScalar scalarKeys key value with
            | .map_ entries =>
              .map_ (entries.map
                (fun kv => (kv.1, convertToScalar scalarKeys kv.1 kv.2)))
            | v => v) ∧
    (∀ k2, k2 ≠ key →
      List.lookup k2 (setitemN scalarKeys n key value).data =
        List.lookup k2 n.data) ∧
    (setitemN scalarKeys n key value).xschema = n.xschema := by
  refine ⟨?_, ?_, rfl⟩
  · exact lookup_updAssoc n.data key _
  · intro k2 h
    exact lookup_updAssoc_ne n.data key k2 _ h

/-- Witness for C9: assigning a dict value under the scalar key `origin` on an
empty node (no existence check — the key is absent) commits the promoted
value; an unrelated key is untouched. -/
theorem c9_setitem_unchecked_commit_witness :
    List.lookup "origin"
      (setitemN ["origin"] ⟨[], none, .taggedK emptySch, []⟩ "origin"
        (.str "STSCI")).data = some (.promoted "origin" (.str "STSCI")) ∧
    List.lookup "z"
      (setitemN ["origin"] ⟨[], none, .taggedK emptySch, []⟩ "origin"
        (.str "STSCI")).data =
      List.lookup "z" ([] : List (String × Value)) :=
  ⟨(c9_setitem_unchecked_commit ["origin"] ⟨[], none, .taggedK emptySch, []⟩
      "origin" (.str "STSCI")).1,
    (c9_setitem_unchecked_commit ["origin"] ⟨[], none, .taggedK emptySch, []⟩
      "origin" (.str "STSCI")).2.1 "z" (by decide)⟩

theorem not_mem_keys_of_lookup_none {α : Type} (d : List (String × α))
    (k : String) (h : List.lookup k d = none) : k ∉ d.map Prod.fst := by
  induction d with
  | nil => simp
  | cons p rest ih =>
    obtain ⟨k', v'⟩ := p
    simp only [List.lookup] at h
    cases hb : (k == k') with
    | true => rw [hb] at h; simp at h
    | false =>
      rw [hb] at h
      have hne : k ≠ k' := by
        intro he
        rw [he] at hb
        simp at hb
      simp [hne, ih h]

theorem updAssoc_keys_of_lookup_none {α : Type} (d : List (String × α))
    (k : String) (v : α) (h : List.lookup k d = none) :
    (updAssoc d k v).map Prod.fst = d.map Prod.fst ++ [k] := by
  induction d with
  | nil => simp [updAssoc]
  | cons p rest ih =>
    obtain ⟨k', v'⟩ := p
    simp only [List.lookup] at h
    cases hb : (k == k') with
    | true => rw [hb] at h; simp at h
    | false =>
      rw [hb] at h
      have hne : k' ≠ k := by
        intro he
        rw [he] at hb
        simp at hb
      simp [updAssoc, hne, ih h]

theorem registerObject_preserves_nodup (r0 : List (String × String))
    (h0 : (r0.map Prod.fst).Nodup) (clsName tag : String)
    (r1 : List (String × String))
    (h : registerObjectClass r0 clsName tag = .ok r1) :
    (r1.map Prod.fst).Nodup := by
  unfold registerObjectClass at h
  by_cases hb : clsName = "TaggedObjectNode"
  · simp [hb] at h
    subst h
    exact h0
  · simp only [hb, if_false, ite_false, if_neg] at h
    cases hm : List.lookup tag r0 with
    | some c => rw [hm] at h; simp at h
    | none =>
      rw [hm] at h
      simp at h
      subst h
      rw [updAssoc_keys_of_lookup_none r0 tag clsName hm]
      simp [List.nodup_append, h0]
      intro x hx
      exact (not_mem_keys_of_lookup_none r0 tag hm)
        (List.mem_map_of_mem Prod.fst hx)

theorem foldRegisterObject_nodup_aux (defs : List (String × String)) :
    ∀ r0 reg, (r0.map Prod.fst).Nodup →
      (defs.foldlM (fun reg p => registerObjectClass reg p.1 p.2) r0 :
        Except String (List (String × String))) = .ok reg →
      (reg.map Prod.fst).Nodup := by
  induction defs with
  | nil =>
    intro r0 reg h0 h
    simp only [List.foldlM, pure, Except.pure, Except.ok.injEq] at h
    subst h
    exact h0
  | cons p rest ih =>
    intro r0 reg h0 h
    rw [List.foldlM_cons] at h
    cases hr : registerObjectClass r0 p.1 p.2 with
    | error e =>
      rw [hr] at h
      simp [Bind.bind, Except.bind] at h
    | ok r1 =>
      rw [hr] at h
      simp only [Bind.bind, Except.bind] at h
      exact ih r1 reg (registerObject_preserves_nodup r0 h0 p.1 p.2 r1 hr) h

/-- C7: in each of the three registries, defining a second concrete class
(any class whose name is not the exempt base-class name) under a tag already
present raises the fatal duplicate-registration `RuntimeError`; and any
sequence of object-class definitions at import time that completes without
that error yields a registry whose tags are pairwise distinct, i.e. every
registered tag maps to exactly one concrete class. -/
theorem c7_duplicate_tag_registration :
    (∀ (reg : List (String × String)) (clsName tag : String),
      clsName ≠ "TaggedObjectNode" → (List.lookup tag reg).isSome = true →
      registerObjectClass reg clsName tag =
        .error ("TaggedObjectNode class for tag " ++ tag ++
          " has been defined twice")) ∧
    (∀ (reg : List (String × String)) (clsName tag : String),
      clsName ≠ "TaggedListNode" → (List.lookup tag reg).isSome = true →
      registerListClass reg clsName tag =
        .error ("TaggedListNode class for tag " ++ tag ++
          " has been defined twice")) ∧
    (∀ (regT regK : List (String × String)) (clsName tag : String),
      clsName ≠ "TaggedScalarNode" → (List.lookup tag regT).isSome = true →
      registerScalarClass regT regK clsName tag =
        .error ("TaggedScalarNode class for tag " ++ tag ++
          " has been defined twice")) ∧
    (∀ (defs : List (String × String)) (reg : List (String × String)),
      foldRegisterObject defs = .ok reg → (reg.map Prod.fst).Nodup) := by
  refine ⟨?_, ?_, ?_, ?_⟩
  · intro reg clsName tag hname hdup
    simp [registerObjectClass, hname, hdup]
  · intro reg clsName tag hname hdup
    simp [registerListClass, hname, hdup]
  · intro regT regK clsName tag hname hdup
    simp [registerScalarClass, hname, hdup]
  · intro defs reg h
    exact foldRegisterObject_nodup_aux defs [] reg (by simp) h

/-- Witness for C7: re-registering tag `t1` (already bound to class `A`) from
a new class `B` fails in all three registries, and a clean two-definition
registration sequence yields a duplicate-free object registry. -/
theorem c7_duplicate_tag_registration_witness :
    registerObjectClass [("t1", "A")] "B" "t1" =
      .error ("TaggedObjectNode class for tag " ++ "t1" ++
        " has been defined twice") ∧
    registerListClass [("t1", "A")] "B" "t1" =
      .error ("TaggedListNode class for tag " ++ "t1" ++
        " has been defined twice") ∧
    registerScalarClass [("t1", "A")] [("k", "A")] "B" "t1" =
      .error ("TaggedScalarNode class for tag " ++ "t1" ++
        " has been defined twice") ∧
    (([("t1", "A"), ("t2", "B")] : List (String × String)).map Prod.fst).Nodup :=
  ⟨c7_duplicate_tag_registration.1 [("t1", "A")] "B" "t1" (by decide) rfl,
    c7_duplicate_tag_registration.2.1 [("t1", "A")] "B" "t1" (by decide) rfl,
    c7_duplicate_tag_registration.2.2.1 [("t1", "A")] [("k", "A")] "B" "t1"
      (by decide) rfl,
    c7_duplicate_tag_registration.2.2.2 [("A", "t1"), ("B", "t2")]
      [("t1", "A"), ("t2", "B")] rfl⟩

/-- C10 (amended): an indexed read of a dict element of a sequence node wraps
it as `DNode(value)` — no parent back-reference, no key name, no cached
schema; consequently, with validation enabled, every non-private attribute
write to such an element whose key and value pass the unconditional
origin/telescope membership checks (which otherwise raise a validation error
first — see the counterexample) fails during schema resolution with the
`AttributeError` of `None._schema()`, a non-validation error, leaving the
element's data unchanged. -/
theorem c10_orphan_element_amended (data : List Value) (i : Nat)
    (entries : List (String × Value)) (env : Env) (key : String) (value : Value)
    (hel : data[i]? = some (.map_ entries))
    (hval : env.validate = true)
    (hk0 : key ≠ "") (hk1 : key.front ≠ '_')
    (hor : key = "origin" → pyStrIn value validOriginL = true)
    (htel : key = "telescope" → pyStrIn value validTelescopeL = true)
    (hpresent : (List.lookup key entries).isSome = true) :
    lnodeGetitem data i =
      some (.dnodeR ⟨entries, none, .plainK .noneP none, []⟩) ∧
    setattrN env ⟨entries, none, .plainK .noneP none, []⟩ key value =
      ⟨⟨entries, none, .plainK .noneP none, []⟩, [], some .noneTypeAttr⟩ := by
  have hnor : ¬(key = "origin" ∧ ¬ pyStrIn value validOriginL = true) := by
    rintro ⟨h1, h2⟩
    exact h2 (hor h1)
  have hntel : ¬(key = "telescope" ∧ ¬ pyStrIn value validTelescopeL = true) := by
    rintro ⟨h1, h2⟩
    exact h2 (htel h1)
  constructor
  · simp [lnodeGetitem, hel]
  · simp only [setattrN, hk0, hk1, hnor, hntel, hval, hpresent, resolveXSchema,
      Option.isSome_some, if_true, ite_true, if_neg, reduceIte, if_false,
      ite_false]

/-- Witness for C10's amended theorem: reading element 0 of `[\x7bx: 1\x7d]` and
writing `x = None` on it with validation enabled fails with the
schema-resolution `AttributeError`. -/
theorem c10_orphan_element_amended_witness :
    lnodeGetitem [Value.map_ [("x", .int_ 1)]] 0 =
      some (.dnodeR ⟨[("x", .int_ 1)], none, .plainK .noneP none, []⟩) ∧
    setattrN ⟨true, true, fun _ _ => [], fun _ _ => [], fun _ _ => "", []⟩
      ⟨[("x", .int_ 1)], none, .plainK .noneP none, []⟩ "x" .null =
      ⟨⟨[("x", .int_ 1)], none, .plainK .noneP none, []⟩, [],
        some .noneTypeAttr⟩ :=
  c10_orphan_element_amended [Value.map_ [("x", .int_ 1)]] 0
    [("x", .int_ 1)] ⟨true, true, fun _ _ => [], fun _ _ => [], fun _ _ => "", []⟩ "x" .null
    rfl rfl (by decide) (by decide) (by decide) (by decide) rfl

/-- C10 (counterexample): the element `\x7borigin: "STSCI"\x7d` read out of a
sequence node has the key `origin` present, yet writing `origin = "ESA"` to
it (validation enabled) raises the unconditional origin membership
`jsonschema.ValidationError` — a validation error, raised before schema
resolution is ever attempted — so "every non-private attribute write ...
fails during schema resolution (a non-validation error), for every key
present in the element and every value" is false as stated. -/
theorem c10_element_origin_counterexample :
    lnodeGetitem [Value.map_ [("origin", .str "STSCI")]] 0 =
      some (.dnodeR ⟨[("origin", .str "STSCI")], none, .plainK .noneP none, []⟩) ∧
    (setattrN ⟨true, true, fun _ _ => [], fun _ _ => [], fun _ _ => "", []⟩
      ⟨[("origin", .str "STSCI")], none, .plainK .noneP none, []⟩
      "origin" (.str "ESA")).err =
      some (.valErr "origin must be one of [STSCI, IPAC/SSC]") ∧
    some (SErr.valErr "origin must be one of [STSCI, IPAC/SSC]") ≠
      some SErr.noneTypeAttr := by
  refine ⟨rfl, rfl, by simp⟩
